import Mathlib

/-!
Verification of the per-session streaming analysis pipeline of the
AI surveillance server (src/main.py and src/surveillance.py).

The Python code is shallowly embedded: the `BehaviorAnalyzer` mutable
state becomes `AnalyzerState` and its methods become pure state-passing
functions; the `AISurveillanceServer` per-client dictionaries become
total functions from a client id with explicit defaults; real-valued
scores and counters become rationals.  The feature-extraction
collaborator (MediaPipe) is modelled as supplied per-frame signals, and
an extraction failure (the `except` branch of `analyze_behavior`) as a
`none` input.
-/

namespace Surveillance

/-- Per-frame signals obtained from the decoded image: the brightness and
contrast statistics used by `detect_camera_blocked`, and the outputs of
the external extraction collaborator (`analyze_gaze`, `analyze_movements`,
`analyze_posture` in src/surveillance.py). -/
structure FrameSignals where
  brightness : ℚ
  contrast : ℚ
  looking_away : Bool
  gaze_direction : String
  face_detected : Bool
  suspicious_count : ℕ
  head_movement : Bool
  stood_up : Bool
deriving DecidableEq

/-- The mutable credibility state of `BehaviorAnalyzer`
(src/surveillance.py lines 33-35). -/
structure AnalyzerState where
  credibility_score : ℚ
  camera_blocked_frames : ℚ
  no_face_frames : ℕ
deriving DecidableEq

/-- `BehaviorAnalyzer.__init__`: score 100, counters 0. -/
def initAnalyzerState : AnalyzerState :=
  { credibility_score := 100, camera_blocked_frames := 0, no_face_frames := 0 }

/-- `BehaviorAnalyzer.detect_camera_blocked` (src/surveillance.py lines
79-91): a low-brightness-and-low-contrast frame increments the counter by
1, any other frame decays it by 0.5 floored at 0; blocked iff the updated
counter exceeds 5.  Returns (blocked flag, updated counter). -/
def detect_camera_blocked (camera_blocked_frames : ℚ) (brightness contrast : ℚ) :
    Bool × ℚ :=
  let c := if brightness < 30 ∧ contrast < 15 then camera_blocked_frames + 1
           else max 0 (camera_blocked_frames - 1/2)
  (decide (5 < c), c)

/-- The `no_face_frames` update performed inside `analyze_gaze`
(src/surveillance.py lines 107 and 123): reset to 0 when a face is found,
incremented when not. -/
def update_no_face (no_face_frames : ℕ) (face_detected : Bool) : ℕ :=
  if face_detected then 0 else no_face_frames + 1

/-- The additive deduction accumulated by
`BehaviorAnalyzer.calculate_credibility_deduction`
(src/surveillance.py lines 191-202, the local variable `deduction`). -/
def deduction_formula (no_face_frames : ℕ) (sig : FrameSignals)
    (camera_blocked : Bool) : ℕ :=
  (if sig.looking_away then 3 else 0) +
  (if 0 < sig.suspicious_count then sig.suspicious_count * 2 else 0) +
  (if sig.stood_up then 15 else 0) +
  (if camera_blocked then 10 else 0) +
  (if sig.face_detected = false ∧ 10 < no_face_frames then 5 else 0)

/-- `BehaviorAnalyzer.calculate_credibility_deduction` (src/surveillance.py
lines 190-207).  Takes the score and the already-updated `no_face_frames`
(the Python method reads `self.no_face_frames` after `analyze_gaze` has
updated it).  Returns (deduction, score after the regeneration side
effect of lines 204-205). -/
def calculate_credibility_deduction (credibility_score : ℚ) (no_face_frames : ℕ)
    (sig : FrameSignals) (camera_blocked : Bool) : ℕ × ℚ :=
  let d := deduction_formula no_face_frames sig camera_blocked
  let score2 := if d = 0 ∧ credibility_score < 100
                then min 100 (credibility_score + 1/2)
                else credibility_score
  (d, score2)

/-- The per-frame result dictionary returned by `analyze_behavior`
(src/surveillance.py lines 53-63 and 67-77). -/
structure AnalysisResult where
  looking_away : Bool
  suspicious_movements : ℕ
  person_stood_up : Bool
  camera_blocked : Bool
  credibility_score : ℤ
  gaze_direction : String
  head_movement : Bool
  face_detected : Bool
  status : String
deriving DecidableEq

/-- Python `int()` truncation toward zero on a rational. -/
def pyInt (q : ℚ) : ℤ :=
  if 0 ≤ q then ⌊q⌋ else -⌊-q⌋

/-- The fallback dictionary returned when analysis raises
(src/surveillance.py lines 67-77): neutral fields, constant score 100,
status "error". -/
def error_result : AnalysisResult :=
  { looking_away := false, suspicious_movements := 0, person_stood_up := false,
    camera_blocked := false, credibility_score := 100, gaze_direction := "center",
    head_movement := false, face_detected := false, status := "error" }

/-- `BehaviorAnalyzer.analyze_behavior` (src/surveillance.py lines 38-77).
`ext = none` models the extraction collaborator raising: the method
returns the fallback dictionary and no state is mutated.  Otherwise the
camera counter, the no-face counter, the regeneration side effect and the
deduction (line 51: `max(20, score - deduction)`) are applied in the
code's order. -/
def analyze_behavior (st : AnalyzerState) (ext : Option FrameSignals) :
    AnalysisResult × AnalyzerState :=
  match ext with
  | none => (error_result, st)
  | some sig =>
    let cb := detect_camera_blocked st.camera_blocked_frames sig.brightness sig.contrast
    let nff := update_no_face st.no_face_frames sig.face_detected
    let dr := calculate_credibility_deduction st.credibility_score nff sig cb.1
    let score3 := max 20 (dr.2 - (dr.1 : ℚ))
    ({ looking_away := sig.looking_away, suspicious_movements := sig.suspicious_count,
       person_stood_up := sig.stood_up, camera_blocked := cb.1,
       credibility_score := pyInt score3, gaze_direction := sig.gaze_direction,
       head_movement := sig.head_movement, face_detected := sig.face_detected,
       status := "analyzed" },
     { credibility_score := score3, camera_blocked_frames := cb.2, no_face_frames := nff })

/-- The deduction computed by one `analyze_behavior` call on signals `sig`
in state `st` (using the no-face counter after this frame's update and
the camera flag after this frame's counter update, as the code does). -/
def deduction_of (st : AnalyzerState) (sig : FrameSignals) : ℕ :=
  (calculate_credibility_deduction st.credibility_score
    (update_no_face st.no_face_frames sig.face_detected) sig
    (detect_camera_blocked st.camera_blocked_frames sig.brightness sig.contrast).1).1

/-- The score after the regeneration side effect of
`calculate_credibility_deduction`, before line 51 applies the deduction. -/
def score_after_regen (st : AnalyzerState) (sig : FrameSignals) : ℚ :=
  (calculate_credibility_deduction st.credibility_score
    (update_no_face st.no_face_frames sig.face_detected) sig
    (detect_camera_blocked st.camera_blocked_frames sig.brightness sig.contrast).1).2

/-- Iterated analysis of a sequence of successfully extracted frames. -/
def run_frames (st : AnalyzerState) (l : List FrameSignals) : AnalyzerState :=
  l.foldl (fun s sig => (analyze_behavior s (some sig)).2) st

/-- Pointwise update of a function-modelled dictionary. -/
def upd {A : Type} (f : ℕ → A) (k : ℕ) (v : A) : ℕ → A :=
  fun j => if j = k then v else f j

/-- The state of `AISurveillanceServer` (src/main.py lines 29-37).
Clients are identified by a natural number standing for the websocket
handle.  The per-client dictionaries become total functions with the
code's lookup defaults (`[]`, absent, absent).  Note there is a single
`analyzer` field for the whole server, exactly as in `__init__`
(line 31), shared by every connection. -/
structure ServerState where
  analyzer : AnalyzerState
  clients : List ℕ
  scores_per_client : ℕ → List ℤ
  employee_ids : ℕ → Option String
  last_frame_time : ℕ → Option ℚ
  max_fps : ℚ

/-- `AISurveillanceServer.__init__` with the default `max_fps=10`
(src/main.py line 29; `main()` passes 10 explicitly as well). -/
def initServerState : ServerState :=
  { analyzer := initAnalyzerState, clients := [],
    scores_per_client := fun _ => [], employee_ids := fun _ => none,
    last_frame_time := fun _ => none, max_fps := 10 }

/-- The content of one binary frame message: either the image bytes fail
`cv2.imdecode` (src/main.py line 63-66), or they decode and analysis
either succeeds with extracted signals or raises (`none`). -/
inductive FrameContent where
  | badImage : FrameContent
  | image : Option FrameSignals → FrameContent
deriving DecidableEq

/-- One inbound websocket message, decided at the boundary as in
src/main.py lines 47-80: a recognized init text message, any other text,
or a binary frame. -/
inductive Message where
  | initMsg : String → Message
  | otherText : Message
  | frame : FrameContent → Message

/-- The frame-rate gate condition of src/main.py lines 56-59: the frame
is accepted iff NOT `now - last_time < 1 / max_fps`, where a client with
no recorded time has `last_time = 0`. -/
def gate_accepts (s : ServerState) (ws : ℕ) (now : ℚ) : Bool :=
  decide (¬ (now - ((s.last_frame_time ws).getD 0) < 1 / s.max_fps))

/-- One iteration of the `async for message` loop of
`AISurveillanceServer.handle_video_stream` (src/main.py lines 44-84).
Returns the new server state and the result dispatched to the client via
`safe_send` (`none` when nothing is sent).  Order is the code's: the gate
is checked first, `last_frame_time` is set on acceptance before decoding,
a decode failure then skips the frame, otherwise the analysis result is
recorded in `scores_per_client` and dispatched. -/
def handle_message (s : ServerState) (ws : ℕ) (now : ℚ) (m : Message) :
    ServerState × Option AnalysisResult :=
  match m with
  | .initMsg eid => ({ s with employee_ids := upd s.employee_ids ws (some eid) }, none)
  | .otherText => (s, none)
  | .frame c =>
    if gate_accepts s ws now then
      let s1 := { s with last_frame_time := upd s.last_frame_time ws (some now) }
      match c with
      | .badImage => (s1, none)
      | .image ext =>
        let ra := analyze_behavior s1.analyzer ext
        ({ s1 with
            analyzer := ra.2,
            scores_per_client := upd s1.scores_per_client ws
              (s1.scores_per_client ws ++ [ra.1.credibility_score]) },
         some ra.1)
    else (s, none)

/-- `self.clients.add(websocket)` on connection open (src/main.py line 40). -/
def handle_connect (s : ServerState) (ws : ℕ) : ServerState :=
  { s with clients := if ws ∈ s.clients then s.clients else ws :: s.clients }

/-- The mean of the recorded scores, as `sum(scores) / len(scores)`
(src/main.py line 107). -/
def meanScores (l : List ℤ) : ℚ :=
  ((l.sum : ℤ) : ℚ) / (l.length : ℚ)

/-- Python 3 `round` to an integer: round half to even (src/main.py
line 121 applies it to the final mean score). -/
def pyRound (q : ℚ) : ℤ :=
  if q - ⌊q⌋ < 1/2 then ⌊q⌋
  else if 1/2 < q - ⌊q⌋ then ⌊q⌋ + 1
  else if ⌊q⌋ % 2 = 0 then ⌊q⌋ else ⌊q⌋ + 1

/-- The JSON payload posted by `send_score_to_backend`
(src/main.py line 121). -/
structure BackendPayload where
  employee_id : String
  score_de_credibilite : ℤ
deriving DecidableEq

/-- `AISurveillanceServer.cleanup_client` (src/main.py lines 101-117):
pop the client's scores, compute the mean if any, pop the employee id,
launch a backend report only when both are present, and unconditionally
remove the client from `clients` and `last_frame_time`.  Returns the new
state and the payload handed to `send_score_to_backend`, if any. -/
def cleanup_client (s : ServerState) (ws : ℕ) : ServerState × Option BackendPayload :=
  let scores := s.scores_per_client ws
  let final : Option ℚ := if scores.isEmpty then none else some (meanScores scores)
  let report : Option BackendPayload :=
    match final, s.employee_ids ws with
    | some f, some e => some { employee_id := e, score_de_credibilite := pyRound f }
    | _, _ => none
  ({ s with
      clients := s.clients.filter (fun j => j ≠ ws),
      scores_per_client := upd s.scores_per_client ws [],
      employee_ids := upd s.employee_ids ws none,
      last_frame_time := upd s.last_frame_time ws none }, report)

/-- A fully clean frame: bright, face detected, nothing suspicious, so
every deduction condition is false. -/
def clean_sig : FrameSignals :=
  { brightness := 100, contrast := 50, looking_away := false,
    gaze_direction := "center", face_detected := true, suspicious_count := 0,
    head_movement := false, stood_up := false }

/-- A frame whose only suspicious signal is `looking_away`. -/
def lookaway_sig : FrameSignals :=
  { brightness := 100, contrast := 50, looking_away := true,
    gaze_direction := "left", face_detected := true, suspicious_count := 0,
    head_movement := false, stood_up := false }

/-- A low-brightness, low-contrast frame (brightness 10 < 30 and
contrast 5 < 15), otherwise clean. -/
def low_sig : FrameSignals :=
  { brightness := 10, contrast := 5, looking_away := false,
    gaze_direction := "center", face_detected := true, suspicious_count := 0,
    head_movement := false, stood_up := false }

/-- The Observation of the deduction-additivity test: looking away with
two suspicious movements and nothing else. -/
def lookaway2_sig : FrameSignals :=
  { brightness := 100, contrast := 50, looking_away := true,
    gaze_direction := "left", face_detected := true, suspicious_count := 2,
    head_movement := false, stood_up := false }

/-- The camera-blocked counter after n consecutive low-brightness,
low-contrast frames starting from 0. -/
def counter_after_low : ℕ → ℚ
  | 0 => 0
  | n + 1 => (detect_camera_blocked (counter_after_low n) 10 5).2

/-- The internal score after ten consecutive clean frames starting from a
credibility state with score 80 and both counters 0. -/
def ten_clean_from_80 : ℚ :=
  (run_frames { credibility_score := 80, camera_blocked_frames := 0, no_face_frames := 0 }
    (List.replicate 10 clean_sig)).credibility_score

/-- The server state after session A (client 0) has sent one
looking-away frame at time 1 on a fresh server. -/
def after_session_A : ServerState :=
  (handle_message initServerState 0 1 (.frame (.image (some lookaway_sig)))).1

theorem score_after_regen_le (st : AnalyzerState) (sig : FrameSignals)
    (h2 : st.credibility_score ≤ 100) :
    score_after_regen st sig ≤ 100 := by
  unfold score_after_regen calculate_credibility_deduction
  dsimp only
  split
  · exact min_le_left _ _
  · exact h2

theorem analyze_score_eq (st : AnalyzerState) (sig : FrameSignals) :
    (analyze_behavior st (some sig)).2.credibility_score
      = max 20 (score_after_regen st sig - (deduction_of st sig : ℚ)) := rfl

theorem step_bounds (st : AnalyzerState) (sig : FrameSignals)
    (h2 : st.credibility_score ≤ 100) :
    20 ≤ (analyze_behavior st (some sig)).2.credibility_score ∧
    (analyze_behavior st (some sig)).2.credibility_score ≤ 100 := by
  rw [analyze_score_eq]
  refine ⟨le_max_left _ _, max_le (by norm_num) ?_⟩
  have hd : (0:ℚ) ≤ (deduction_of st sig : ℚ) := Nat.cast_nonneg _
  have hs2 := score_after_regen_le st sig h2
  linarith

theorem run_frames_bounds (l : List FrameSignals) (st : AnalyzerState)
    (h1 : 20 ≤ st.credibility_score) (h2 : st.credibility_score ≤ 100) :
    20 ≤ (run_frames st l).credibility_score ∧
    (run_frames st l).credibility_score ≤ 100 := by
  induction l generalizing st with
  | nil => exact ⟨h1, h2⟩
  | cons sig rest ih =>
    have hstep := step_bounds st sig h2
    exact ih ((analyze_behavior st (some sig)).2) hstep.1 hstep.2

/-- Claim C2: starting from the initial score 100, after processing any
sequence of Observations the internal credibility score satisfies
20 ≤ score ≤ 100 (and since every prefix of a sequence is itself a
sequence, the bounds hold after every update step). -/
theorem claim_C2_score_bounds (l : List FrameSignals) :
    20 ≤ (run_frames initAnalyzerState l).credibility_score ∧
    (run_frames initAnalyzerState l).credibility_score ≤ 100 :=
  run_frames_bounds l initAnalyzerState (by norm_num [initAnalyzerState])
    (by norm_num [initAnalyzerState])

/-- Claim C3: the per-frame deduction is 3 for looking away, plus
2 × suspiciousMovementCount when positive, plus 15 for standing up, plus
10 when the camera is blocked, plus 5 when no face is detected and the
consecutive-no-face counter (as updated this frame) exceeds 10; the new
score is max(20, score − totalDeduction), where the score the deduction
is applied to equals the pre-frame score except on deduction-free frames
(the regeneration case); and the Observation with lookingAway = true and
suspiciousMovementCount = 2 and all other conditions false yields a
deduction of exactly 7. -/
theorem claim_C3_deduction_rule (st : AnalyzerState) (sig : FrameSignals) :
    deduction_of st sig =
      (if sig.looking_away then 3 else 0) +
      (if 0 < sig.suspicious_count then 2 * sig.suspicious_count else 0) +
      (if sig.stood_up then 15 else 0) +
      (if (detect_camera_blocked st.camera_blocked_frames sig.brightness sig.contrast).1
        then 10 else 0) +
      (if sig.face_detected = false ∧ 10 < update_no_face st.no_face_frames sig.face_detected
        then 5 else 0)
    ∧ (analyze_behavior st (some sig)).2.credibility_score
        = max 20 (score_after_regen st sig - (deduction_of st sig : ℚ))
    ∧ (score_after_regen st sig = st.credibility_score ∨ deduction_of st sig = 0)
    ∧ deduction_of initAnalyzerState lookaway2_sig = 7 := by
  refine ⟨?_, rfl, ?_, ?_⟩
  · unfold deduction_of calculate_credibility_deduction deduction_formula
    dsimp only
    rw [Nat.mul_comm]
  · unfold score_after_regen deduction_of calculate_credibility_deduction
    dsimp only
    split
    · rename_i h
      exact Or.inr h.1
    · exact Or.inl rfl
  · norm_num [deduction_of, calculate_credibility_deduction, deduction_formula,
      update_no_face, detect_camera_blocked, initAnalyzerState, lookaway2_sig]

/-- Claim C4: on a frame with total deduction 0 and current score below
100, the score becomes min(100, score + 0.5); since reachable scores are
half-integers, the increase is exactly 0.5 and never overshoots 100;
and ten consecutive clean frames starting at score 80 end at exactly 85.
Regeneration is by definition confined to deduction-free frames, so it
never combines with a deduction in the same frame. -/
theorem claim_C4_regeneration (st : AnalyzerState) (sig : FrameSignals)
    (hhalf : ∃ n : ℤ, st.credibility_score = n / 2)
    (hlo : 20 ≤ st.credibility_score)
    (hd : deduction_of st sig = 0)
    (hlt : st.credibility_score < 100) :
    (analyze_behavior st (some sig)).2.credibility_score
      = min 100 (st.credibility_score + 1/2)
    ∧ (analyze_behavior st (some sig)).2.credibility_score
      = st.credibility_score + 1/2
    ∧ (analyze_behavior st (some sig)).2.credibility_score ≤ 100
    ∧ ten_clean_from_80 = 85 := by
  have hle : st.credibility_score + 1/2 ≤ 100 := by
    obtain ⟨n, hn⟩ := hhalf
    rw [hn] at hlt ⊢
    have h200 : (n : ℚ) < 200 := by linarith
    have h200z : n < 200 := by exact_mod_cast h200
    have h199 : (n : ℚ) ≤ 199 := by exact_mod_cast Int.lt_add_one_iff.mp h200z
    linarith
  have hregen : score_after_regen st sig = min 100 (st.credibility_score + 1/2) := by
    unfold score_after_regen calculate_credibility_deduction
    dsimp only
    exact if_pos ⟨hd, hlt⟩
  have hnew : (analyze_behavior st (some sig)).2.credibility_score
      = st.credibility_score + 1/2 := by
    rw [analyze_score_eq, hd, hregen, min_eq_right hle]
    push_cast
    rw [sub_zero]
    exact max_eq_right (by linarith)
  have hten : ten_clean_from_80 = 85 := by
    norm_num [ten_clean_from_80, run_frames, analyze_behavior, clean_sig,
      detect_camera_blocked, update_no_face, calculate_credibility_deduction,
      deduction_formula, min_def, max_def, List.replicate]
  exact ⟨by rw [hnew, min_eq_right hle], hnew, by rw [hnew]; exact hle, hten⟩

/-- Witness for claim C4 at the state with score 80 and both counters 0,
on a clean frame: all hypotheses hold and the score becomes 80.5. -/
theorem claim_C4_regeneration_witness :
    (analyze_behavior { credibility_score := 80, camera_blocked_frames := 0, no_face_frames := 0 }
        (some clean_sig)).2.credibility_score = min 100 ((80 : ℚ) + 1/2)
    ∧ (analyze_behavior { credibility_score := 80, camera_blocked_frames := 0, no_face_frames := 0 }
        (some clean_sig)).2.credibility_score = (80 : ℚ) + 1/2
    ∧ (analyze_behavior { credibility_score := 80, camera_blocked_frames := 0, no_face_frames := 0 }
        (some clean_sig)).2.credibility_score ≤ 100
    ∧ ten_clean_from_80 = 85 :=
  claim_C4_regeneration
    { credibility_score := 80, camera_blocked_frames := 0, no_face_frames := 0 }
    clean_sig ⟨160, by norm_num⟩ (by norm_num)
    (by norm_num [deduction_of, calculate_credibility_deduction, deduction_formula,
      update_no_face, detect_camera_blocked, clean_sig])
    (by norm_num)

theorem counter_after_low_eq (n : ℕ) : counter_after_low n = (n : ℚ) := by
  induction n with
  | zero => norm_num [counter_after_low]
  | succ k ih =>
    show (detect_camera_blocked (counter_after_low k) 10 5).2 = ((k + 1 : ℕ) : ℚ)
    rw [ih]
    unfold detect_camera_blocked
    dsimp only
    rw [if_pos (by norm_num)]
    push_cast
    ring

/-- Claim C7: starting from counter 0, after n consecutive low frames the
camera-blocked counter is exactly n, the flag reported while processing
low frame number n+1 is true iff n+1 > 5 (so the flag first becomes true
on exactly the sixth consecutive low frame), and one bright frame after
six low ones only lowers the counter from 6 to 5.5 (the flag even stays
true on that frame). -/
theorem claim_C7_camera_hysteresis (n : ℕ) :
    counter_after_low n = (n : ℚ)
    ∧ (detect_camera_blocked (counter_after_low n) 10 5).1 = decide (5 < n + 1)
    ∧ detect_camera_blocked (counter_after_low 6) 100 50 = (true, 11/2) := by
  refine ⟨counter_after_low_eq n, ?_, ?_⟩
  · rw [counter_after_low_eq n]
    unfold detect_camera_blocked
    dsimp only
    rw [if_pos (by norm_num)]
    have hcast : ((5 : ℚ) < (n : ℚ) + 1) ↔ (5 < n + 1) := by exact_mod_cast Iff.rfl
    simp [hcast]
  · rw [counter_after_low_eq 6]
    unfold detect_camera_blocked
    dsimp only
    rw [if_neg (by norm_num)]
    norm_num [max_def]

/-- Claim C1 (refuting the per-session isolation claim on the code):
src/main.py line 31 creates one `BehaviorAnalyzer` in
`AISurveillanceServer.__init__`, shared by every connection.  After
session A (client 0) sends a single looking-away frame on a fresh
server, session B's (client 1) very first, fully clean frame is answered
with credibility score 97 — the same frame on a fresh server is answered
with 100 — and the credibility state B starts from is 97, not 100.  So
one session's frames do change another session's score, and a session's
score does not start at 100 at connection open. -/
theorem claim_C1_shared_analyzer_interference :
    (handle_message after_session_A 1 (11/10) (.frame (.image (some clean_sig)))).2
      = some { looking_away := false, suspicious_movements := 0, person_stood_up := false,
               camera_blocked := false, credibility_score := 97, gaze_direction := "center",
               head_movement := false, face_detected := true, status := "analyzed" }
    ∧ (handle_message initServerState 1 (11/10) (.frame (.image (some clean_sig)))).2
      = some { looking_away := false, suspicious_movements := 0, person_stood_up := false,
               camera_blocked := false, credibility_score := 100, gaze_direction := "center",
               head_movement := false, face_detected := true, status := "analyzed" }
    ∧ after_session_A.analyzer.credibility_score = 97 := by
  refine ⟨?_, ?_, ?_⟩ <;>
    norm_num [handle_message, after_session_A, initServerState, initAnalyzerState,
      gate_accepts, analyze_behavior, clean_sig, lookaway_sig, detect_camera_blocked,
      update_no_face, calculate_credibility_deduction, deduction_formula,
      min_def, max_def, pyInt, upd]

/-- Claim C5: on cleanup, a backend report is produced iff the client's
recorded scores are non-empty and an employee id is bound; the payload is
the employee id with the Python-rounded mean of the scores; and the
client's registry entries (clients set, scores, employee id, last frame
time) are removed unconditionally. -/
theorem claim_C5_disconnect_report (s : ServerState) (ws : ℕ) :
    ((cleanup_client s ws).2.isSome ↔
      s.scores_per_client ws ≠ [] ∧ (s.employee_ids ws).isSome)
    ∧ (∀ e : String, s.employee_ids ws = some e → s.scores_per_client ws ≠ [] →
        (cleanup_client s ws).2 = some
          { employee_id := e,
            score_de_credibilite := pyRound (meanScores (s.scores_per_client ws)) })
    ∧ ws ∉ (cleanup_client s ws).1.clients
    ∧ (cleanup_client s ws).1.scores_per_client ws = []
    ∧ (cleanup_client s ws).1.employee_ids ws = none
    ∧ (cleanup_client s ws).1.last_frame_time ws = none := by
  refine ⟨?_, ?_, ?_, ?_, ?_, ?_⟩
  · by_cases hS : s.scores_per_client ws = []
    · simp [cleanup_client, hS]
    · cases hE : s.employee_ids ws <;>
        simp [cleanup_client, hS, hE, List.isEmpty_iff]
  · intro e he hne
    simp [cleanup_client, he, hne, List.isEmpty_iff]
  · simp [cleanup_client, List.mem_filter]
  · simp [cleanup_client, upd]
  · simp [cleanup_client, upd]
  · simp [cleanup_client, upd]

/-- A server holding the end-to-end scenario of the spec: client 0 has
recorded scores 97, 94, 91 and employee id "E1". -/
def demo_server : ServerState :=
  { initServerState with
      scores_per_client := upd (fun _ => []) 0 [97, 94, 91],
      employee_ids := upd (fun _ => none) 0 (some "E1") }

/-- Witness for claim C5: cleaning up client 0 of `demo_server` reports
employee "E1" with round((97+94+91)/3) = 94 and clears the bookkeeping. -/
theorem claim_C5_disconnect_report_witness :
    (cleanup_client demo_server 0).2
      = some { employee_id := "E1", score_de_credibilite := 94 }
    ∧ (cleanup_client demo_server 0).1.employee_ids 0 = none := by
  have h := claim_C5_disconnect_report demo_server 0
  refine ⟨?_, h.2.2.2.2.1⟩
  have h2 := h.2.1 "E1" (by simp [demo_server, upd])
    (by simp [demo_server, upd])
  rw [h2]
  norm_num [demo_server, upd, meanScores, pyRound]

/-- Claim C6: a frame is accepted iff now − lastFrameTimestamp ≥ 1/maxFps
(a client with no recorded timestamp has it 0); a rejected frame leaves
the whole server state unchanged and sends nothing; on acceptance the
client's lastFrameTimestamp becomes now; and the server's default maxFps
is 10. -/
theorem claim_C6_frame_gate (s : ServerState) (ws : ℕ) (now : ℚ) (c : FrameContent) :
    (gate_accepts s ws now = true ↔
      1 / s.max_fps ≤ now - (s.last_frame_time ws).getD 0)
    ∧ (gate_accepts s ws now = false → handle_message s ws now (.frame c) = (s, none))
    ∧ (gate_accepts s ws now = true →
        (handle_message s ws now (.frame c)).1.last_frame_time ws = some now)
    ∧ initServerState.max_fps = 10 := by
  refine ⟨?_, ?_, ?_, rfl⟩
  · unfold gate_accepts
    simp [not_lt]
  · intro h
    simp [handle_message, h]
  · intro h
    cases c with
    | badImage => simp [handle_message, h, upd]
    | image ext => simp [handle_message, h, upd]

/-- The fresh server after client 0's gate-accepted frame at time 1 whose
image bytes failed to decode. -/
def after_bad_frame : ServerState :=
  (handle_message initServerState 0 1 (.frame .badImage)).1

/-- Witness for claim C6: on a fresh server a frame at time 1 is accepted
and records timestamp 1; a frame arriving at time 21/20 (only 1/20 s
later, less than 1/10) is rejected with no state change and no reply. -/
theorem claim_C6_frame_gate_witness :
    handle_message after_bad_frame 0 (21/20) (.frame .badImage) = (after_bad_frame, none)
    ∧ (handle_message initServerState 0 1 (.frame .badImage)).1.last_frame_time 0 = some 1 := by
  constructor
  · exact (claim_C6_frame_gate after_bad_frame 0 (21/20) .badImage).2.1
      (by norm_num [gate_accepts, after_bad_frame, handle_message, initServerState, upd])
  · exact (claim_C6_frame_gate initServerState 0 1 .badImage).2.2.1
      (by norm_num [gate_accepts, initServerState])

/-- Claim C8: a gate-accepted frame on which extraction raises yields the
neutral error result (all Observation fields neutral, status "error"),
leaves the whole analyzer state — in particular the credibility score —
unchanged, and the result is still dispatched to the client. -/
theorem claim_C8_extraction_failure (s : ServerState) (ws : ℕ) (now : ℚ)
    (hacc : gate_accepts s ws now = true) :
    (handle_message s ws now (.frame (.image none))).2 = some error_result
    ∧ (handle_message s ws now (.frame (.image none))).1.analyzer = s.analyzer
    ∧ error_result.status = "error"
    ∧ error_result.looking_away = false
    ∧ error_result.suspicious_movements = 0
    ∧ error_result.person_stood_up = false
    ∧ error_result.camera_blocked = false
    ∧ error_result.face_detected = false
    ∧ error_result.gaze_direction = "center"
    ∧ error_result.head_movement = false := by
  refine ⟨?_, ?_, rfl, rfl, rfl, rfl, rfl, rfl, rfl, rfl⟩
  · simp [handle_message, hacc, analyze_behavior]
  · simp [handle_message, hacc, analyze_behavior]

/-- Witness for claim C8 on a fresh server at time 1. -/
theorem claim_C8_extraction_failure_witness :
    (handle_message initServerState 0 1 (.frame (.image none))).2 = some error_result
    ∧ (handle_message initServerState 0 1 (.frame (.image none))).1.analyzer
        = initServerState.analyzer
    ∧ error_result.status = "error"
    ∧ error_result.looking_away = false
    ∧ error_result.suspicious_movements = 0
    ∧ error_result.person_stood_up = false
    ∧ error_result.camera_blocked = false
    ∧ error_result.face_detected = false
    ∧ error_result.gaze_direction = "center"
    ∧ error_result.head_movement = false :=
  claim_C8_extraction_failure initServerState 0 1
    (by norm_num [gate_accepts, initServerState])

/-- A server whose shared analyzer currently holds score 55. -/
def low_score_server : ServerState :=
  { initServerState with
      analyzer := { credibility_score := 55, camera_blocked_frames := 0, no_face_frames := 0 } }

/-- Claim C9: the result of a gate-accepted frame on which analysis
raises carries the constant credibility score 100, whatever the current
internal score, and that 100 is appended to the client's score history
(so it contributes 100, not the pre-frame score, to the reported mean). -/
theorem claim_C9_error_frame_records_100 (s : ServerState) (ws : ℕ) (now : ℚ)
    (hacc : gate_accepts s ws now = true) :
    (handle_message s ws now (.frame (.image none))).2 = some error_result
    ∧ error_result.credibility_score = 100
    ∧ (handle_message s ws now (.frame (.image none))).1.scores_per_client ws
        = s.scores_per_client ws ++ [100] := by
  refine ⟨?_, rfl, ?_⟩
  · simp [handle_message, hacc, analyze_behavior]
  · simp [handle_message, hacc, analyze_behavior, upd, error_result]

/-- Witness for claim C9 on a server whose internal score is 55: the
error frame still records 100. -/
theorem claim_C9_error_frame_records_100_witness :
    (handle_message low_score_server 0 1 (.frame (.image none))).2 = some error_result
    ∧ error_result.credibility_score = 100
    ∧ (handle_message low_score_server 0 1 (.frame (.image none))).1.scores_per_client 0
        = low_score_server.scores_per_client 0 ++ [100] :=
  claim_C9_error_frame_records_100 low_score_server 0 1
    (by norm_num [gate_accepts, low_score_server, initServerState])

/-- Claim C10: a gate-accepted frame whose image bytes fail to decode
still sets the client's lastFrameTimestamp to its arrival time before
the decode is attempted (while sending nothing and recording no score),
so a subsequent frame arriving less than 1/maxFps later is rejected by
the gate even though no frame was processed in that window. -/
theorem claim_C10_bad_frame_consumes_window (s : ServerState) (ws : ℕ) (t1 t2 : ℚ)
    (c : FrameContent)
    (hacc : gate_accepts s ws t1 = true)
    (hlt : t2 - t1 < 1 / s.max_fps) :
    (handle_message s ws t1 (.frame .badImage)).1.last_frame_time ws = some t1
    ∧ (handle_message s ws t1 (.frame .badImage)).2 = none
    ∧ (handle_message s ws t1 (.frame .badImage)).1.scores_per_client ws
        = s.scores_per_client ws
    ∧ handle_message ((handle_message s ws t1 (.frame .badImage)).1) ws t2 (.frame c)
        = ((handle_message s ws t1 (.frame .badImage)).1, none) := by
  have h1 : (handle_message s ws t1 (.frame .badImage)).1.last_frame_time ws = some t1 := by
    simp [handle_message, hacc, upd]
  have h2 : (handle_message s ws t1 (.frame .badImage)).1.max_fps = s.max_fps := by
    simp [handle_message, hacc]
  have hg : gate_accepts ((handle_message s ws t1 (.frame .badImage)).1) ws t2 = false := by
    unfold gate_accepts
    rw [h1, h2]
    have hlt2 : t2 - t1 < (s.max_fps)⁻¹ := by
      rw [← one_div]
      exact hlt
    simp [hlt2]
  refine ⟨h1, ?_, ?_, ?_⟩
  · simp [handle_message, hacc]
  · simp [handle_message, hacc]
  · generalize hS1 : (handle_message s ws t1 (.frame .badImage)).1 = s1 at hg ⊢
    simp [handle_message, hg]

/-- Witness for claim C10: on a fresh server a bad frame at time 1 is
accepted and stamps the window; a frame at time 21/20 is rejected. -/
theorem claim_C10_bad_frame_consumes_window_witness :
    (handle_message initServerState 0 1 (.frame .badImage)).1.last_frame_time 0 = some 1
    ∧ (handle_message initServerState 0 1 (.frame .badImage)).2 = none
    ∧ (handle_message initServerState 0 1 (.frame .badImage)).1.scores_per_client 0
        = initServerState.scores_per_client 0
    ∧ handle_message ((handle_message initServerState 0 1 (.frame .badImage)).1) 0 (21/20)
          (.frame (.image (some clean_sig)))
        = ((handle_message initServerState 0 1 (.frame .badImage)).1, none) :=
  claim_C10_bad_frame_consumes_window initServerState 0 1 (21/20)
    (.image (some clean_sig))
    (by norm_num [gate_accepts, initServerState])
    (by norm_num [initServerState])

end Surveillance
